import Mathlib

/-!
Shallow embedding of the Aviator crash-game settlement engine of `EthBot.py`
(`_multiplier_at_ms`, `_sample_crash_point`, `api_aviator_start`,
`api_aviator_cashout`, `api_aviator_status`).

Modelling choices:
* Monetary amounts and multipliers are exact rationals (`ℚ`); Python floats
  are modelled exactly.
* Timestamps are milliseconds (`ℕ`); each handler receives the server clock
  value `now` as a parameter (`datetime.datetime.now()` in the source).
* The PostgreSQL tables `users`, `aviator_rounds` and `aviator_plays` become
  finite maps `ℕ → Option _`; `aviator_plays` is keyed by `round_id` (the
  start handler inserts exactly one play per round).
* Each handler runs inside a single DB transaction that is committed at the
  end; an unhandled Python exception (e.g. a `None` fetch subscripted) aborts
  the transaction, so those paths are modelled as a `serverError` result with
  the state rolled back (unchanged).
* The handlers are `async` and suspend at every `await`ed statement, and the
  terminal `UPDATE`s carry no `status='active'` guard, so two requests for
  the same round can interleave between the guarded `SELECT` and the commit.
  `api_aviator_start`/`api_aviator_cashout`/`api_aviator_status` below model
  one uninterleaved handler execution; `cashout_read`/`cashout_finish` split
  the cash-out handler at that await boundary to model the interleaving.
* The entropy consumed by a handler (`secrets.token_hex`, `random.random()`)
  is passed in as an explicit argument.
-/

inductive RoundStatus
  | active
  | crashed
  | cashed
  deriving DecidableEq

inductive Outcome
  | none
  | win
  | lose
  deriving DecidableEq

/-- A row of the `users` table (`payment_status = 'registered'` is the
`registered` flag). -/
structure User where
  balance : ℚ
  registered : Bool
  deriving DecidableEq

/-- A row of the `aviator_rounds` table. -/
structure Round where
  chatId : Nat
  seed : String
  crashPoint : ℚ
  startTime : Nat
  endTime : Option Nat
  status : RoundStatus
  deriving DecidableEq

/-- A row of the `aviator_plays` table (keyed by its `round_id`). -/
structure Play where
  chatId : Nat
  betAmount : ℚ
  cashoutMultiplier : Option ℚ
  payout : Option ℚ
  outcome : Outcome
  deriving DecidableEq

/-- The mutable database state the three aviator endpoints touch. -/
structure BotState where
  users : Nat → Option User
  rounds : Nat → Option Round
  plays : Nat → Option Play
  nextRoundId : Nat

/-- `K = 0.00012  # growth per millisecond` -/
def K : ℚ := 0.00012

/-- `def _multiplier_at_ms(ms): return (1 + K) ** ms` -/
def multiplier_at_ms (ms : Nat) : ℚ := (1 + K) ^ ms

/-- Python's `round(x, 2)` (round half to even), over exact rationals. -/
def roundHalfEvenQ (x : ℚ) : ℤ :=
  if x - ⌊x⌋ < 1 / 2 then ⌊x⌋
  else if 1 / 2 < x - ⌊x⌋ then ⌊x⌋ + 1
  else if ⌊x⌋ % 2 = 0 then ⌊x⌋ else ⌊x⌋ + 1

def pyRound2 (x : ℚ) : ℚ := (roundHalfEvenQ (x * 100) : ℚ) / 100

/-- Python's `round(x, 2)` over the reals, for the crash-point sampler. -/
noncomputable def roundHalfEvenR (x : ℝ) : ℤ :=
  if x - ⌊x⌋ < 1 / 2 then ⌊x⌋
  else if 1 / 2 < x - ⌊x⌋ then ⌊x⌋ + 1
  else if ⌊x⌋ % 2 = 0 then ⌊x⌋ else ⌊x⌋ + 1

noncomputable def pyRound2R (x : ℝ) : ℝ := (roundHalfEvenR (x * 100) : ℝ) / 100

/-- `_sample_crash_point`, as a function of the uniform draw
`u = random.random()` (a value in `[0,1)`; the source replaces an exact `0`
by `1e-9` via `random.random() or 1e-9`):
`lam = 1.1; extra = -log(u)/lam; crash = 1.02 + extra*2.2;
return max(1.02, round(crash, 2))`. -/
noncomputable def sample_crash_point (u : ℝ) : ℝ :=
  max 1.02 (pyRound2R (1.02 + -Real.log (if u = 0 then 1e-9 else u) / 1.1 * 2.2))

/-- Result of `POST /api/aviator/start` (only the fields the handler emits:
the success body is `{ok, round_id, seed, start_time}`). -/
inductive StartResult
  | invalidRequest
  | notRegistered
  | insufficientBalance
  | ok (roundId : Nat) (seed : String) (startTime : Nat)
  deriving DecidableEq

/-- Result of `POST /api/aviator/cashout`. `roundCrashed` carries the
`crash_point` field of the 400 "Round crashed" body; `ok` carries
`round(multiplier,2)`, `round(payout,2)` and the (unrounded) new balance. -/
inductive CashoutResult
  | invalidRequest
  | notFoundOrEnded
  | roundCrashed (crashPoint : ℚ)
  | ok (multiplier payout balance : ℚ)
  | serverError
  deriving DecidableEq

/-- The JSON body of a successful `GET /api/aviator/status` reply: the three
fields always present, plus the optional ones each branch adds. -/
structure StatusResponse where
  roundId : Nat
  status : RoundStatus
  seed : String
  currentMultiplier : Option ℚ
  crashPoint : Option ℚ
  cashoutMultiplier : Option ℚ
  payout : Option ℚ
  deriving DecidableEq

inductive StatusResult
  | invalidRequest
  | notFound
  | ok (response : StatusResponse)
  | serverError
  deriving DecidableEq

/-- `POST /api/aviator/start`: validate `chat_id`/`bet_amount`, require a
registered user with sufficient balance, debit the bet, insert a `running`
(stored as `'active'`) round and its play row. `seed` and `crash_point` are
the entropy drawn inside the handler, passed here as arguments. -/
def api_aviator_start (s : BotState) (chat_id : Nat) (bet_amount : ℚ)
    (seed : String) (crash_point : ℚ) (now : Nat) : StartResult × BotState :=
  if chat_id = 0 ∨ bet_amount ≤ 0 then (.invalidRequest, s)
  else
    match s.users chat_id with
    | none => (.notRegistered, s)
    | some u =>
      if u.registered = false then (.notRegistered, s)
      else if u.balance < bet_amount then (.insufficientBalance, s)
      else
        let rid := s.nextRoundId
        (.ok rid seed now,
          { users := fun c => if c = chat_id then
              some { u with balance := u.balance - bet_amount } else s.users c,
            rounds := fun i => if i = rid then
              some { chatId := chat_id, seed := seed, crashPoint := crash_point,
                     startTime := now, endTime := none, status := .active }
              else s.rounds i,
            plays := fun i => if i = rid then
              some { chatId := chat_id, betAmount := bet_amount,
                     cashoutMultiplier := none, payout := none, outcome := .none }
              else s.plays i,
            nextRoundId := rid + 1 })

/-- `POST /api/aviator/cashout`. The round lookup is
`WHERE id=%s AND chat_id=%s AND status='active'`; a miss is the 404
"Round not found or already ended". If the current multiplier has reached
the crash point the round is marked crashed with no balance action;
otherwise the play is settled as a win with `payout = bet_amount *
current_multiplier` and the balance credited. -/
def api_aviator_cashout (s : BotState) (chat_id round_id : Nat) (now : Nat) :
    CashoutResult × BotState :=
  if chat_id = 0 ∨ round_id = 0 then (.invalidRequest, s)
  else
    match s.rounds round_id with
    | none => (.notFoundOrEnded, s)
    | some r =>
      if r.chatId ≠ chat_id ∨ r.status ≠ .active then (.notFoundOrEnded, s)
      else
        let current_multiplier := multiplier_at_ms (now - r.startTime)
        if r.crashPoint ≤ current_multiplier then
          (.roundCrashed r.crashPoint,
            { s with
              rounds := fun i => if i = round_id then
                some { r with status := .crashed, endTime := some now }
                else s.rounds i,
              plays := fun i => if i = round_id then
                (s.plays i).map (fun p => if p.chatId = chat_id then
                  { p with outcome := .lose } else p)
                else s.plays i })
        else
          match s.plays round_id with
          | none => (.serverError, s)
          | some p =>
            if p.chatId ≠ chat_id then (.serverError, s)
            else
              match s.users chat_id with
              | none => (.serverError, s)
              | some u =>
                let payout := p.betAmount * current_multiplier
                (.ok (pyRound2 current_multiplier) (pyRound2 payout)
                    (u.balance + payout),
                  { s with
                    users := fun c => if c = chat_id then
                      some { u with balance := u.balance + payout }
                      else s.users c,
                    rounds := fun i => if i = round_id then
                      some { r with status := .cashed, endTime := some now }
                      else s.rounds i,
                    plays := fun i => if i = round_id then
                      some { p with
                             cashoutMultiplier := some current_multiplier,
                             payout := some payout, outcome := .win }
                      else s.plays i })

/-- `GET /api/aviator/status`. Always reports `round_id`, `status`, `seed`.
An active round additionally reports `current_multiplier` and is lazily
transitioned to crashed (reporting `crash_point`) when the multiplier has
reached the crash point; a crashed round reports its `crash_point`; a cashed
round reports the recorded `cashout_multiplier` and `payout`. -/
def api_aviator_status (s : BotState) (chat_id round_id : Nat) (now : Nat) :
    StatusResult × BotState :=
  if chat_id = 0 ∨ round_id = 0 then (.invalidRequest, s)
  else
    match s.rounds round_id with
    | none => (.notFound, s)
    | some r =>
      if r.chatId ≠ chat_id then (.notFound, s)
      else
        let base : StatusResponse :=
          { roundId := round_id, status := r.status, seed := r.seed,
            currentMultiplier := none, crashPoint := none,
            cashoutMultiplier := none, payout := none }
        match r.status with
        | .active =>
          let current_multiplier := multiplier_at_ms (now - r.startTime)
          if r.crashPoint ≤ current_multiplier then
            (.ok { base with
                   status := .crashed,
                   currentMultiplier := some (pyRound2 current_multiplier),
                   crashPoint := some r.crashPoint },
              { s with
                rounds := fun i => if i = round_id then
                  some { r with status := .crashed, endTime := some now }
                  else s.rounds i,
                plays := fun i => if i = round_id then
                  (s.plays i).map (fun p => if p.chatId = chat_id then
                    { p with outcome := .lose } else p)
                  else s.plays i })
          else
            (.ok { base with
                   currentMultiplier := some (pyRound2 current_multiplier) }, s)
        | .crashed => (.ok { base with crashPoint := some r.crashPoint }, s)
        | .cashed =>
          match s.plays round_id with
          | none => (.serverError, s)
          | some p =>
            if p.chatId ≠ chat_id then (.serverError, s)
            else
              match p.cashoutMultiplier, p.payout with
              | some cm, some po =>
                (.ok { base with
                       cashoutMultiplier := some (pyRound2 cm),
                       payout := some (pyRound2 po) }, s)
              | _, _ => (.serverError, s)

/-- The guarded lookup of the cash-out handler: `SELECT id, crash_point,
start_time, status FROM aviator_rounds WHERE id=%s AND chat_id=%s AND
status='active'` (EthBot.py:1440-1448), evaluated against the current
committed state. The snapshot it returns is all the rest of the handler
ever rechecks — there is no second status test. -/
def cashout_read (s : BotState) (chat_id round_id : Nat) : Option Round :=
  match s.rounds round_id with
  | none => none
  | some r => if r.chatId = chat_id ∧ r.status = .active then some r else none

/-- The remainder of the cash-out handler after the guarded `SELECT`,
computed from the snapshot `r` that the `SELECT` returned but executed
against the state current at commit time. Faithful to the source's
statements: the crash test uses the snapshot's `crash_point`/`start_time`;
`UPDATE aviator_rounds SET status=..., end_time=... WHERE id=%s`
(EthBot.py:1456, 1491) updates the current row unconditionally — it has no
`status='active'` guard; `SELECT bet_amount FROM aviator_plays ...`
(EthBot.py:1475-1480) and `UPDATE users SET balance = balance + %s`
(EthBot.py:1497-1499) read the current committed rows. -/
def cashout_finish (s : BotState) (chat_id round_id now : Nat) (r : Round) :
    CashoutResult × BotState :=
  let current_multiplier := multiplier_at_ms (now - r.startTime)
  if r.crashPoint ≤ current_multiplier then
    (.roundCrashed r.crashPoint,
      { s with
        rounds := fun i => if i = round_id then
          (s.rounds i).map (fun cur => { cur with status := .crashed, endTime := some now })
          else s.rounds i,
        plays := fun i => if i = round_id then
          (s.plays i).map (fun p => if p.chatId = chat_id then
            { p with outcome := .lose } else p)
          else s.plays i })
  else
    match s.plays round_id with
    | none => (.serverError, s)
    | some p =>
      if p.chatId ≠ chat_id then (.serverError, s)
      else
        match s.users chat_id with
        | none => (.serverError, s)
        | some u =>
          let payout := p.betAmount * current_multiplier
          (.ok (pyRound2 current_multiplier) (pyRound2 payout) (u.balance + payout),
            { s with
              users := fun c => if c = chat_id then
                some { u with balance := u.balance + payout } else s.users c,
              rounds := fun i => if i = round_id then
                (s.rounds i).map (fun cur => { cur with status := .cashed, endTime := some now })
                else s.rounds i,
              plays := fun i => if i = round_id then
                some { p with
                       cashoutMultiplier := some current_multiplier,
                       payout := some payout, outcome := .win }
                else s.plays i })

/-- One client request against the engine (with its entropy, for `start`). -/
inductive AviatorOp
  | start (chat_id : Nat) (bet_amount : ℚ) (seed : String) (crash_point : ℚ)
  | cashout (chat_id round_id : Nat)
  | queryStatus (chat_id round_id : Nat)

/-- The state after one request handled at server time `now`, under the
idealization that the whole handler runs as one uninterleaved step — the
serialization the spec's per-round compare-and-swap is meant to enforce,
which the code's unguarded terminal updates do not actually provide (see
`cashout_read`/`cashout_finish` and `cashout_double_settlement_bug`). -/
def applyOp (s : BotState) (op : AviatorOp) (now : Nat) : BotState :=
  match op with
  | .start c b sd cp => (api_aviator_start s c b sd cp now).2
  | .cashout c rid => (api_aviator_cashout s c rid now).2
  | .queryStatus c rid => (api_aviator_status s c rid now).2

/-- Spec-side definition: truncation down to the currency's smallest unit
(0.01), the spec's "rounded down to the currency's smallest unit". -/
def trunc2 (x : ℚ) : ℚ := (⌊x * 100⌋ : ℚ) / 100

/-- Spec-side definition, following the spec's words: "payout = betAmount +
max(0, betAmount*(m-1)) * (1 - houseEdge)", truncated down. To be compared
with the payout the code credits. -/
def spec_payout (b m e : ℚ) : ℚ := trunc2 (b + max 0 (b * (m - 1)) * (1 - e))

def user0 : User := { balance := 100, registered := true }

/-- A registered user with balance 100 and no rounds. -/
def state0 : BotState :=
  { users := fun c => if c = 7 then some user0 else none,
    rounds := fun _ => none,
    plays := fun _ => none,
    nextRoundId := 1 }

/-- A registered user with a large balance and no rounds. -/
def richState : BotState :=
  { users := fun c => if c = 7 then some { balance := 1000000, registered := true } else none,
    rounds := fun _ => none,
    plays := fun _ => none,
    nextRoundId := 1 }

/-- An active round (bet 10 already debited, crash point 2) for user 7. -/
def runningRound : Round :=
  { chatId := 7, seed := "abcd", crashPoint := 2, startTime := 0,
    endTime := none, status := .active }

def runningPlay : Play :=
  { chatId := 7, betAmount := 10, cashoutMultiplier := none, payout := none,
    outcome := .none }

def state1 : BotState :=
  { users := fun c => if c = 7 then some { balance := 90, registered := true } else none,
    rounds := fun i => if i = 1 then some runningRound else none,
    plays := fun i => if i = 1 then some runningPlay else none,
    nextRoundId := 2 }

/-- An active round for user 7 whose crash point (1) is already reached at
elapsed time 0. -/
def crashingRound : Round :=
  { chatId := 7, seed := "abcd", crashPoint := 1, startTime := 0,
    endTime := none, status := .active }

def state2 : BotState :=
  { users := fun c => if c = 7 then some { balance := 90, registered := true } else none,
    rounds := fun i => if i = 1 then some crashingRound else none,
    plays := fun i => if i = 1 then some runningPlay else none,
    nextRoundId := 2 }

/-- A round already cashed out (multiplier 3/2, payout 15 recorded). -/
def cashedRound : Round :=
  { chatId := 7, seed := "abcd", crashPoint := 2, startTime := 0,
    endTime := some 40, status := .cashed }

def cashedPlay : Play :=
  { chatId := 7, betAmount := 10, cashoutMultiplier := some (3 / 2),
    payout := some 15, outcome := .win }

def state3 : BotState :=
  { users := fun c => if c = 7 then some { balance := 105, registered := true } else none,
    rounds := fun i => if i = 1 then some cashedRound else none,
    plays := fun i => if i = 1 then some cashedPlay else none,
    nextRoundId := 2 }

/-- A round already crashed (crash point 3/2 recorded). -/
def crashedRound : Round :=
  { chatId := 7, seed := "abcd", crashPoint := 3 / 2, startTime := 0,
    endTime := some 40, status := .crashed }

def losePlay : Play :=
  { chatId := 7, betAmount := 10, cashoutMultiplier := none, payout := none,
    outcome := .lose }

def state4 : BotState :=
  { users := fun c => if c = 7 then some { balance := 90, registered := true } else none,
    rounds := fun i => if i = 1 then some crashedRound else none,
    plays := fun i => if i = 1 then some losePlay else none,
    nextRoundId := 2 }

/-- C6: the multiplier curve is strictly monotonically increasing — for all
elapsed times `t2 > t1 ≥ 0`, `multiplier_at_ms t2 > multiplier_at_ms t1` —
and `multiplier_at_ms 0 = 1`. -/
theorem multiplier_strict_mono (t1 t2 : Nat) (h : t1 < t2) :
    multiplier_at_ms t1 < multiplier_at_ms t2 ∧ multiplier_at_ms 0 = 1 := by
  constructor
  · exact pow_lt_pow_right₀ (by norm_num [K]) h
  · norm_num [multiplier_at_ms]

theorem multiplier_strict_mono_witness :
    multiplier_at_ms 0 < multiplier_at_ms 1 ∧ multiplier_at_ms 0 = 1 :=
  multiplier_strict_mono 0 1 (by decide)

/-- C5: for a valid start request by a registered user, if the balance is at
least the bet the call succeeds and the balance is debited by exactly the
bet; if the balance is smaller the call fails with the insufficient-balance
error and the whole state is unchanged. -/
theorem start_bet_conservation (s : BotState) (c : Nat) (b : ℚ) (sd : String)
    (cp : ℚ) (now : Nat) (u : User)
    (hc : c ≠ 0) (hb : 0 < b) (hu : s.users c = some u)
    (hreg : u.registered = true) :
    (b ≤ u.balance →
      (api_aviator_start s c b sd cp now).1 = .ok s.nextRoundId sd now ∧
      (api_aviator_start s c b sd cp now).2.users c =
        some { balance := u.balance - b, registered := u.registered }) ∧
    (u.balance < b →
      (api_aviator_start s c b sd cp now).1 = .insufficientBalance ∧
      (api_aviator_start s c b sd cp now).2 = s) := by
  constructor
  · intro hle
    simp [api_aviator_start, hu, hc, hreg, not_le.mpr hb, not_lt.mpr hle]
  · intro hlt
    simp [api_aviator_start, hu, hc, hreg, not_le.mpr hb, hlt]

theorem start_bet_conservation_witness :
    (api_aviator_start state0 7 30 "abcd" 2 0).1 = .ok 1 "abcd" 0 ∧
    (api_aviator_start state0 7 30 "abcd" 2 0).2.users 7 =
      some { balance := 70, registered := true } := by
  have h := (start_bet_conservation state0 7 30 "abcd" 2 0 user0 (by decide)
    (by norm_num) rfl rfl).1 (by norm_num [user0])
  refine ⟨h.1, ?_⟩
  rw [h.2]
  norm_num [user0]

/-- C8 (amended): start validates only that the bet is positive — the
invalid-request error is returned exactly when `chat_id = 0` or
`bet_amount ≤ 0`; no upper bound on the bet is enforced. -/
theorem start_invalid_bet_iff (s : BotState) (c : Nat) (b : ℚ) (sd : String)
    (cp : ℚ) (now : Nat) :
    (api_aviator_start s c b sd cp now).1 = .invalidRequest ↔ (c = 0 ∨ b ≤ 0) := by
  constructor
  · intro h
    by_contra hcon
    push_neg at hcon
    rw [api_aviator_start, if_neg (by push_neg; exact ⟨hcon.1, hcon.2⟩)] at h
    rcases hus : s.users c with _ | u <;> simp [hus] at h
    split at h
    · simp_all
    · split at h <;> simp_all
  · intro h
    simp [api_aviator_start, h]

/-- C8 (counterexample): a bet of 5000, far above the spec's example
`maxBet = 1000`, is accepted by start (and in particular is not rejected as
an invalid bet) whenever the balance covers it. -/
theorem start_no_max_bet_counterexample :
    (1000 : ℚ) < 5000 ∧
    (api_aviator_start richState 7 5000 "abcd" 2 0).1 = .ok 1 "abcd" 0 ∧
    (api_aviator_start richState 7 5000 "abcd" 2 0).1 ≠ .invalidRequest := by
  refine ⟨by norm_num, by decide, by decide⟩

/-- C3: a cash-out on an active round whose multiplier has reached the crash
point credits nothing — the result is the "Round crashed" error carrying the
crash point, every balance is untouched, and the round is marked crashed. -/
theorem cashout_no_late_payout (s : BotState) (c rid now : Nat) (r : Round)
    (hc : c ≠ 0) (hrid : rid ≠ 0) (hr : s.rounds rid = some r)
    (hchat : r.chatId = c) (hact : r.status = .active)
    (hm : r.crashPoint ≤ multiplier_at_ms (now - r.startTime)) :
    (api_aviator_cashout s c rid now).1 = .roundCrashed r.crashPoint ∧
    (api_aviator_cashout s c rid now).2.users = s.users ∧
    (api_aviator_cashout s c rid now).2.rounds rid =
      some { r with status := .crashed, endTime := some now } := by
  refine ⟨?_, ?_, ?_⟩ <;> simp [api_aviator_cashout, hc, hrid, hr, hchat, hact, hm]

theorem cashout_no_late_payout_witness :
    (api_aviator_cashout state2 7 1 0).1 = .roundCrashed 1 ∧
    (api_aviator_cashout state2 7 1 0).2.users = state2.users := by
  have h := cashout_no_late_payout state2 7 1 0 crashingRound (by decide) (by decide)
    rfl rfl rfl (by norm_num [crashingRound, multiplier_at_ms, K])
  exact ⟨h.1, h.2.1⟩

/-- C2 (amended): a successful cash-out on a running round credits exactly
`bet * multiplier` — no house edge is deducted and nothing is truncated; the
credited payout is nonnegative for a nonnegative bet and is at most
`bet * crash_point`. -/
theorem cashout_payout_eq_bet_times_multiplier (s : BotState) (c rid now : Nat)
    (r : Round) (p : Play) (u : User)
    (hc : c ≠ 0) (hrid : rid ≠ 0) (hr : s.rounds rid = some r)
    (hchat : r.chatId = c) (hact : r.status = .active)
    (hm : multiplier_at_ms (now - r.startTime) < r.crashPoint)
    (hp : s.plays rid = some p) (hpc : p.chatId = c) (hu : s.users c = some u) :
    (api_aviator_cashout s c rid now).1 =
      .ok (pyRound2 (multiplier_at_ms (now - r.startTime)))
        (pyRound2 (p.betAmount * multiplier_at_ms (now - r.startTime)))
        (u.balance + p.betAmount * multiplier_at_ms (now - r.startTime)) ∧
    (api_aviator_cashout s c rid now).2.users c =
      some { balance := u.balance + p.betAmount * multiplier_at_ms (now - r.startTime),
             registered := u.registered } ∧
    (0 ≤ p.betAmount →
      0 ≤ p.betAmount * multiplier_at_ms (now - r.startTime) ∧
      p.betAmount * multiplier_at_ms (now - r.startTime) ≤ p.betAmount * r.crashPoint) := by
  have hnn : (0 : ℚ) ≤ multiplier_at_ms (now - r.startTime) :=
    pow_nonneg (by norm_num [K]) _
  refine ⟨?_, ?_, fun hb => ⟨mul_nonneg hb hnn, mul_le_mul_of_nonneg_left hm.le hb⟩⟩ <;>
    simp [api_aviator_cashout, hc, hrid, hr, hchat, hact, hp, hpc, hu, not_le.mpr hm]

theorem cashout_payout_witness :
    (api_aviator_cashout state1 7 1 1).2.users 7 =
      some { balance := 250003 / 2500, registered := true } := by
  have h := cashout_payout_eq_bet_times_multiplier state1 7 1 1 runningRound
    runningPlay { balance := 90, registered := true } (by decide) (by decide)
    rfl rfl rfl (by norm_num [runningRound, multiplier_at_ms, K]) rfl rfl rfl
  rw [h.2.1]
  norm_num [runningRound, runningPlay, multiplier_at_ms, K]

/-- C2 (counterexample): at bet 10 and elapsed time 1 ms the round is still
running (multiplier below the crash point) and the code credits
`10 * multiplier_at_ms 1 = 10.0012`, which differs from the spec's
house-edged, truncated formula both at house edge 0 and at house edge 1%
(the credited value is not even a multiple of the smallest currency unit). -/
theorem cashout_house_edge_counterexample :
    multiplier_at_ms 1 < runningRound.crashPoint ∧
    (api_aviator_cashout state1 7 1 1).2.users 7 =
      some { balance := 90 + 10 * multiplier_at_ms 1, registered := true } ∧
    10 * multiplier_at_ms 1 ≠ spec_payout 10 (multiplier_at_ms 1) 0 ∧
    10 * multiplier_at_ms 1 ≠ spec_payout 10 (multiplier_at_ms 1) (1 / 100) := by
  refine ⟨by norm_num [runningRound, multiplier_at_ms, K], ?_, ?_, ?_⟩
  · simp [api_aviator_cashout, state1, runningRound, runningPlay]
    norm_num [multiplier_at_ms, K]
  · norm_num [multiplier_at_ms, K, spec_payout, trunc2]
  · norm_num [multiplier_at_ms, K, spec_payout, trunc2]

/-- Querying the status of a non-active round never mutates state and its
result does not depend on the server clock. -/
theorem status_terminal_pure (s : BotState) (c rid now now2 : Nat) (r : Round)
    (hr : s.rounds rid = some r) (hact : r.status ≠ .active) :
    (api_aviator_status s c rid now).2 = s ∧
    api_aviator_status s c rid now = api_aviator_status s c rid now2 := by
  by_cases h0 : c = 0 ∨ rid = 0
  · simp [api_aviator_status, h0]
  · by_cases hchat : r.chatId = c
    · rcases hst : r.status with _ | _ | _
      · exact absurd hst hact
      · constructor <;> simp [api_aviator_status, h0, hr, hchat, hst]
      · rcases hps : s.plays rid with _ | p
        · constructor <;> simp [api_aviator_status, h0, hr, hchat, hst, hps]
        · rcases hcm : p.cashoutMultiplier with _ | cm <;>
            rcases hpo : p.payout with _ | po <;>
            by_cases hpc : p.chatId = c <;>
            (constructor <;> simp [api_aviator_status, h0, hr, hchat, hst, hps, hcm, hpo, hpc])
    · constructor <;> simp [api_aviator_status, h0, hr, hchat]

/-- C4 (amended): on a terminal round, cash-out returns the 404
"Round not found or already ended" error (not the stored outcome) and
mutates nothing; status queries mutate nothing, are independent of the
clock, and idempotently report the stored outcome (crash point for crashed
rounds, recorded rounded cashout multiplier and payout for cashed rounds). -/
theorem terminal_round_queries (s : BotState) (c rid now now2 : Nat) (r : Round)
    (hc : c ≠ 0) (hrid : rid ≠ 0) (hr : s.rounds rid = some r)
    (hchat : r.chatId = c)
    (hterm : r.status = .crashed ∨ r.status = .cashed) :
    ((api_aviator_cashout s c rid now).1 = .notFoundOrEnded ∧
     (api_aviator_cashout s c rid now).2 = s) ∧
    ((api_aviator_status s c rid now).2 = s ∧
     api_aviator_status s c rid now = api_aviator_status s c rid now2) ∧
    (r.status = .crashed →
      (api_aviator_status s c rid now).1 =
        .ok { roundId := rid, status := .crashed, seed := r.seed,
              currentMultiplier := none, crashPoint := some r.crashPoint,
              cashoutMultiplier := none, payout := none }) ∧
    (∀ p cm po, r.status = .cashed → s.plays rid = some p → p.chatId = c →
      p.cashoutMultiplier = some cm → p.payout = some po →
      (api_aviator_status s c rid now).1 =
        .ok { roundId := rid, status := .cashed, seed := r.seed,
              currentMultiplier := none, crashPoint := none,
              cashoutMultiplier := some (pyRound2 cm),
              payout := some (pyRound2 po) }) := by
  have hact : r.status ≠ .active := by rcases hterm with h | h <;> simp [h]
  refine ⟨⟨?_, ?_⟩, status_terminal_pure s c rid now now2 r hr hact, ?_, ?_⟩
  · simp [api_aviator_cashout, hc, hrid, hr, hchat, hact]
  · simp [api_aviator_cashout, hc, hrid, hr, hchat, hact]
  · intro h
    simp [api_aviator_status, hc, hrid, hr, hchat, h]
  · intro p cm po h hps hpc hcm hpo
    simp [api_aviator_status, hc, hrid, hr, hchat, h, hps, hpc, hcm, hpo]

/-- C4 (counterexample): on a round already cashed (with multiplier 3/2 and
payout 15 recorded), a cash-out call returns the not-found/already-ended
error rather than the recorded terminal outcome. -/
theorem cashout_terminal_error_counterexample :
    state3.rounds 1 = some cashedRound ∧ cashedRound.status = .cashed ∧
    cashedPlay.cashoutMultiplier = some (3 / 2) ∧ cashedPlay.payout = some 15 ∧
    (api_aviator_cashout state3 7 1 50).1 = .notFoundOrEnded := by
  refine ⟨rfl, rfl, rfl, rfl, by decide⟩

theorem terminal_round_queries_witness :
    (api_aviator_cashout state3 7 1 99).1 = .notFoundOrEnded ∧
    (api_aviator_status state3 7 1 99).2 = state3 ∧
    api_aviator_status state3 7 1 99 = api_aviator_status state3 7 1 123 ∧
    (api_aviator_status state3 7 1 99).1 =
      .ok { roundId := 1, status := .cashed, seed := "abcd",
            currentMultiplier := none, crashPoint := none,
            cashoutMultiplier := some (pyRound2 (3 / 2)),
            payout := some (pyRound2 15) } := by
  have h := terminal_round_queries state3 7 1 99 123 cashedRound (by decide)
    (by decide) rfl rfl (Or.inr rfl)
  exact ⟨h.1.1, h.2.1.1, h.2.1.2, h.2.2.2 cashedPlay (3 / 2) 15 rfl rfl rfl rfl rfl⟩

/-- The start handler writes only the fresh round id: every other round
record is untouched. -/
theorem start_rounds_frozen (s : BotState) (c : Nat) (b : ℚ) (sd : String)
    (cp : ℚ) (now i : Nat) (hi : i ≠ s.nextRoundId) :
    (api_aviator_start s c b sd cp now).2.rounds i = s.rounds i := by
  unfold api_aviator_start
  split
  · rfl
  · split
    · rfl
    · split
      · rfl
      · split
        · rfl
        · simp [hi]

/-- A cash-out call either leaves a round record unchanged or moves it from
active to crashed or to cashed (setting the end time). -/
theorem cashout_rounds_cases (s : BotState) (c rid0 now i : Nat) (r : Round)
    (hr : s.rounds i = some r) :
    (api_aviator_cashout s c rid0 now).2.rounds i = some r ∨
    (r.status = .active ∧
      ((api_aviator_cashout s c rid0 now).2.rounds i =
         some { r with status := .crashed, endTime := some now } ∨
       (api_aviator_cashout s c rid0 now).2.rounds i =
         some { r with status := .cashed, endTime := some now })) := by
  by_cases h0 : c = 0 ∨ rid0 = 0
  · exact Or.inl (by simp [api_aviator_cashout, h0, hr])
  · rcases hr0 : s.rounds rid0 with _ | r0
    · exact Or.inl (by simp [api_aviator_cashout, h0, hr0, hr])
    · by_cases hchat2 : r0.chatId = c
      · by_cases hst : r0.status = RoundStatus.active
        · by_cases hcr : r0.crashPoint ≤ multiplier_at_ms (now - r0.startTime)
          · by_cases hi : i = rid0
            · subst hi
              rw [hr] at hr0
              obtain rfl : r = r0 := Option.some.inj hr0
              exact Or.inr ⟨hst,
                Or.inl (by simp [api_aviator_cashout, h0, hr, hchat2, hst, hcr])⟩
            · exact Or.inl
                (by simp [api_aviator_cashout, h0, hr0, hchat2, hst, hcr, hi, hr])
          · rcases hps : s.plays rid0 with _ | p
            · exact Or.inl
                (by simp [api_aviator_cashout, h0, hr0, hchat2, hst, hcr, hps, hr])
            · by_cases hpc : p.chatId = c
              · rcases hus : s.users c with _ | u
                · exact Or.inl (by simp [api_aviator_cashout, h0, hr0, hchat2, hst,
                    hcr, hps, hpc, hus, hr])
                · by_cases hi : i = rid0
                  · subst hi
                    rw [hr] at hr0
                    obtain rfl : r = r0 := Option.some.inj hr0
                    exact Or.inr ⟨hst, Or.inr (by simp [api_aviator_cashout, h0, hr,
                      hchat2, hst, hcr, hps, hpc, hus])⟩
                  · exact Or.inl (by simp [api_aviator_cashout, h0, hr0, hchat2, hst,
                      hcr, hps, hpc, hus, hi, hr])
              · exact Or.inl (by simp [api_aviator_cashout, h0, hr0, hchat2, hst,
                  hcr, hps, hpc, hr])
        · exact Or.inl (by simp [api_aviator_cashout, h0, hr0, hchat2, hst, hr])
      · exact Or.inl (by simp [api_aviator_cashout, h0, hr0, hchat2, hr])

/-- A status call either leaves a round record unchanged or moves it from
active to crashed (the lazy crash detection). -/
theorem status_rounds_cases (s : BotState) (c rid0 now i : Nat) (r : Round)
    (hr : s.rounds i = some r) :
    (api_aviator_status s c rid0 now).2.rounds i = some r ∨
    (r.status = .active ∧
      (api_aviator_status s c rid0 now).2.rounds i =
        some { r with status := .crashed, endTime := some now }) := by
  by_cases h0 : c = 0 ∨ rid0 = 0
  · exact Or.inl (by simp [api_aviator_status, h0, hr])
  · rcases hr0 : s.rounds rid0 with _ | r0
    · exact Or.inl (by simp [api_aviator_status, h0, hr0, hr])
    · by_cases hchat2 : r0.chatId = c
      · by_cases hst : r0.status = RoundStatus.active
        · by_cases hcr : r0.crashPoint ≤ multiplier_at_ms (now - r0.startTime)
          · by_cases hi : i = rid0
            · subst hi
              rw [hr] at hr0
              obtain rfl : r = r0 := Option.some.inj hr0
              exact Or.inr ⟨hst,
                by simp [api_aviator_status, h0, hr, hchat2, hst, hcr]⟩
            · exact Or.inl
                (by simp [api_aviator_status, h0, hr0, hchat2, hst, hcr, hi, hr])
          · exact Or.inl
              (by simp [api_aviator_status, h0, hr0, hchat2, hst, hcr, hr])
        · have hpure := (status_terminal_pure s c rid0 now now r0 hr0 hst).1
          exact Or.inl (by rw [hpure]; exact hr)
      · exact Or.inl (by simp [api_aviator_status, h0, hr0, hchat2, hr])

/-- Under the atomic-handler idealization `applyOp` only: round status moves
only from `'active'` to `crashed` or `cashed`, terminal rounds are frozen,
and a whole uninterleaved cash-out or status call hitting an
already-terminal round changes nothing. This sequential discipline is NOT
preserved by the real statement-level interleaving — see
`cashout_double_settlement_bug`. -/
theorem round_single_terminal_transition (s : BotState) (op : AviatorOp)
    (now rid : Nat) (r : Round)
    (hr : s.rounds rid = some r) (hfresh : rid ≠ s.nextRoundId) :
    (∀ r', (applyOp s op now).rounds rid = some r' →
      (r.status ≠ .active → r' = r) ∧
      (r'.status ≠ r.status →
        r.status = .active ∧ (r'.status = .crashed ∨ r'.status = .cashed))) ∧
    (r.status ≠ .active → ∀ c,
      (api_aviator_cashout s c rid now).2 = s ∧
      (api_aviator_status s c rid now).2 = s) := by
  constructor
  · intro r' hr'
    cases op with
    | start c b sd cp =>
      simp only [applyOp] at hr'
      rw [start_rounds_frozen s c b sd cp now rid hfresh, hr] at hr'
      obtain rfl : r' = r := (Option.some.inj hr').symm
      exact ⟨fun _ => rfl, fun hne => absurd rfl hne⟩
    | cashout c rid0 =>
      simp only [applyOp] at hr'
      rcases cashout_rounds_cases s c rid0 now rid r hr with h | ⟨hact, h | h⟩
      · rw [h] at hr'
        obtain rfl : r' = r := (Option.some.inj hr').symm
        exact ⟨fun _ => rfl, fun hne => absurd rfl hne⟩
      · rw [h] at hr'
        obtain rfl := (Option.some.inj hr').symm
        exact ⟨fun hterm => absurd hact hterm, fun _ => ⟨hact, Or.inl rfl⟩⟩
      · rw [h] at hr'
        obtain rfl := (Option.some.inj hr').symm
        exact ⟨fun hterm => absurd hact hterm, fun _ => ⟨hact, Or.inr rfl⟩⟩
    | queryStatus c rid0 =>
      simp only [applyOp] at hr'
      rcases status_rounds_cases s c rid0 now rid r hr with h | ⟨hact, h⟩
      · rw [h] at hr'
        obtain rfl : r' = r := (Option.some.inj hr').symm
        exact ⟨fun _ => rfl, fun hne => absurd rfl hne⟩
      · rw [h] at hr'
        obtain rfl := (Option.some.inj hr').symm
        exact ⟨fun hterm => absurd hact hterm, fun _ => ⟨hact, Or.inl rfl⟩⟩
  · intro hact c
    refine ⟨?_, (status_terminal_pure s c rid now now r hr hact).1⟩
    by_cases h0 : c = 0 ∨ rid = 0
    · simp [api_aviator_cashout, h0]
    · simp [api_aviator_cashout, h0, hr, hact]

theorem round_single_terminal_transition_witness :
    (api_aviator_cashout state3 7 1 99).2 = state3 ∧
    (api_aviator_status state3 7 1 99).2 = state3 :=
  (round_single_terminal_transition state3 (.cashout 7 1) 99 1 cashedRound rfl
    (by decide)).2 (by decide) 7

/-- C9: a crash-point value appears in a cash-out or status response only
when the round's status after the call is terminal (crashed) and the value
is that round's stored crash point; while a round stays running no response
carries it (a start response contains no crash-point field at all). -/
theorem no_crash_point_before_terminal (s : BotState) (c rid now : Nat) :
    (∀ cp, (api_aviator_cashout s c rid now).1 = .roundCrashed cp →
      ∃ r', (api_aviator_cashout s c rid now).2.rounds rid = some r' ∧
        r'.status = .crashed ∧ r'.crashPoint = cp) ∧
    (∀ resp cp, (api_aviator_status s c rid now).1 = .ok resp →
      resp.crashPoint = some cp →
      ∃ r', (api_aviator_status s c rid now).2.rounds rid = some r' ∧
        r'.status = .crashed ∧ r'.crashPoint = cp) := by
  constructor
  · intro cp h
    by_cases h0 : c = 0 ∨ rid = 0
    · simp [api_aviator_cashout, h0] at h
    · rcases hr0 : s.rounds rid with _ | r0
      · simp [api_aviator_cashout, h0, hr0] at h
      · by_cases hchat2 : r0.chatId = c
        · by_cases hst : r0.status = RoundStatus.active
          · by_cases hcr : r0.crashPoint ≤ multiplier_at_ms (now - r0.startTime)
            · refine ⟨{ r0 with status := .crashed, endTime := some now }, ?_, rfl, ?_⟩
              · simp [api_aviator_cashout, h0, hr0, hchat2, hst, hcr]
              · simp [api_aviator_cashout, h0, hr0, hchat2, hst, hcr] at h
                exact h
            · rcases hps : s.plays rid with _ | p
              · simp [api_aviator_cashout, h0, hr0, hchat2, hst, hcr, hps] at h
              · by_cases hpc : p.chatId = c
                · rcases hus : s.users c with _ | u
                  · simp [api_aviator_cashout, h0, hr0, hchat2, hst, hcr, hps,
                      hpc, hus] at h
                  · simp [api_aviator_cashout, h0, hr0, hchat2, hst, hcr, hps,
                      hpc, hus] at h
                · simp [api_aviator_cashout, h0, hr0, hchat2, hst, hcr, hps, hpc] at h
          · simp [api_aviator_cashout, h0, hr0, hchat2, hst] at h
        · simp [api_aviator_cashout, h0, hr0, hchat2] at h
  · intro resp cp h hcp
    by_cases h0 : c = 0 ∨ rid = 0
    · simp [api_aviator_status, h0] at h
    · rcases hr0 : s.rounds rid with _ | r0
      · simp [api_aviator_status, h0, hr0] at h
      · by_cases hchat2 : r0.chatId = c
        · rcases hst : r0.status with _ | _ | _
          · by_cases hcr : r0.crashPoint ≤ multiplier_at_ms (now - r0.startTime)
            · refine ⟨{ r0 with status := .crashed, endTime := some now }, ?_, rfl, ?_⟩
              · simp [api_aviator_status, h0, hr0, hchat2, hst, hcr]
              · simp [api_aviator_status, h0, hr0, hchat2, hst, hcr] at h
                rw [← h] at hcp
                exact Option.some.inj hcp
            · simp [api_aviator_status, h0, hr0, hchat2, hst, hcr] at h
              rw [← h] at hcp
              simp at hcp
          · refine ⟨r0, by simp [api_aviator_status, h0, hr0, hchat2, hst], hst, ?_⟩
            simp [api_aviator_status, h0, hr0, hchat2, hst] at h
            rw [← h] at hcp
            exact Option.some.inj hcp
          · rcases hps : s.plays rid with _ | p
            · simp [api_aviator_status, h0, hr0, hchat2, hst, hps] at h
            · by_cases hpc : p.chatId = c
              · rcases hcm : p.cashoutMultiplier with _ | cm <;>
                  rcases hpo : p.payout with _ | po
                · simp [api_aviator_status, h0, hr0, hchat2, hst, hps, hpc,
                    hcm, hpo] at h
                · simp [api_aviator_status, h0, hr0, hchat2, hst, hps, hpc,
                    hcm, hpo] at h
                · simp [api_aviator_status, h0, hr0, hchat2, hst, hps, hpc,
                    hcm, hpo] at h
                · simp [api_aviator_status, h0, hr0, hchat2, hst, hps, hpc,
                    hcm, hpo] at h
                  rw [← h] at hcp
                  simp at hcp
              · simp [api_aviator_status, h0, hr0, hchat2, hst, hps, hpc] at h
        · simp [api_aviator_status, h0, hr0, hchat2] at h

theorem no_crash_point_before_terminal_witness :
    ∃ r', (api_aviator_cashout state2 7 1 0).2.rounds 1 = some r' ∧
      r'.status = .crashed ∧ r'.crashPoint = 1 :=
  (no_crash_point_before_terminal state2 7 1 0).1 1
    (by simp [api_aviator_cashout, state2, crashingRound, multiplier_at_ms, K])

/-- C10: the round's seed is disclosed immediately — a successful start
response carries the seed of the freshly created (still running) round, and
every successful status response carries the round's stored seed, including
while the round is still reported as running. -/
theorem seed_disclosed_at_creation (s : BotState) (c rid now : Nat) (b : ℚ)
    (sd : String) (cp : ℚ) (u : User) (r : Round)
    (hc : c ≠ 0) (hrid : rid ≠ 0) :
    (0 < b → s.users c = some u → u.registered = true → b ≤ u.balance →
      (api_aviator_start s c b sd cp now).1 = .ok s.nextRoundId sd now ∧
      (api_aviator_start s c b sd cp now).2.rounds s.nextRoundId =
        some { chatId := c, seed := sd, crashPoint := cp, startTime := now,
               endTime := none, status := .active }) ∧
    (s.rounds rid = some r → r.chatId = c →
      ∀ resp, (api_aviator_status s c rid now).1 = .ok resp →
        resp.seed = r.seed ∧
        (r.status = .active →
          multiplier_at_ms (now - r.startTime) < r.crashPoint →
          resp.status = .active)) := by
  constructor
  · intro hb hu hreg hle
    constructor <;> simp [api_aviator_start, hc, hu, hreg, not_le.mpr hb, not_lt.mpr hle]
  · intro hr hchat resp h
    rcases hst : r.status with _ | _ | _
    · by_cases hcr : r.crashPoint ≤ multiplier_at_ms (now - r.startTime)
      · simp [api_aviator_status, hc, hrid, hr, hchat, hst, hcr] at h
        rw [← h]
        exact ⟨rfl, fun _ hlt => absurd hcr (not_le.mpr hlt)⟩
      · simp [api_aviator_status, hc, hrid, hr, hchat, hst, hcr] at h
        rw [← h]
        exact ⟨rfl, fun _ _ => rfl⟩
    · simp [api_aviator_status, hc, hrid, hr, hchat, hst] at h
      rw [← h]
      exact ⟨rfl, fun hact _ => absurd hact (by simp)⟩
    · rcases hps : s.plays rid with _ | p
      · simp [api_aviator_status, hc, hrid, hr, hchat, hst, hps] at h
      · by_cases hpc : p.chatId = c
        · rcases hcm : p.cashoutMultiplier with _ | cm <;>
            rcases hpo : p.payout with _ | po <;>
            simp [api_aviator_status, hc, hrid, hr, hchat, hst, hps, hpc, hcm, hpo] at h
          rw [← h]
          exact ⟨rfl, fun hact _ => absurd hact (by simp)⟩
        · simp [api_aviator_status, hc, hrid, hr, hchat, hst, hps, hpc] at h

theorem seed_disclosed_at_creation_witness :
    (api_aviator_start state0 7 30 "abcd" 2 0).1 = .ok 1 "abcd" 0 ∧
    (api_aviator_status state1 7 1 1).1 =
      .ok { roundId := 1, status := .active, seed := "abcd",
            currentMultiplier := some (pyRound2 (multiplier_at_ms 1)),
            crashPoint := none, cashoutMultiplier := none, payout := none } ∧
    "abcd" = runningRound.seed := by
  refine ⟨?_, ?_, rfl⟩
  · exact ((seed_disclosed_at_creation state0 7 1 0 30 "abcd" 2 user0 runningRound
      (by decide) (by decide)).1 (by norm_num) rfl rfl (by norm_num [user0])).1
  · simp [api_aviator_status, state1, runningRound]
    norm_num [multiplier_at_ms, K]

/-- Rounding an integer value to two decimals leaves it unchanged. -/
theorem roundHalfEvenR_intCast (n : ℤ) : roundHalfEvenR (n : ℝ) = n := by
  unfold roundHalfEvenR
  rw [Int.floor_intCast, sub_self, if_pos (by norm_num : (0 : ℝ) < 1 / 2)]

/-- C7 (amended): the crash-point sampler never returns a value below the
configured floor 1.02; no upper cap is enforced. -/
theorem sample_crash_point_floor (u : ℝ) : 1.02 ≤ sample_crash_point u :=
  le_max_left _ _

/-- C7 (counterexample): at the valid uniform draw `u = exp(-60) ∈ (0,1)` the
sampler returns `121.02 > 100` — there is no configured maximum cap. -/
theorem sample_crash_point_no_cap_counterexample :
    0 < Real.exp (-60) ∧ Real.exp (-60) < 1 ∧
    100 < sample_crash_point (Real.exp (-60)) := by
  refine ⟨Real.exp_pos _, Real.exp_lt_one_iff.mpr (by norm_num), ?_⟩
  have hne : Real.exp (-60) ≠ 0 := (Real.exp_pos (-60)).ne'
  have h1 : (1.02 : ℝ) + -Real.log (Real.exp (-60)) / 1.1 * 2.2 = 12102 / 100 := by
    rw [Real.log_exp]
    norm_num
  unfold sample_crash_point
  rw [if_neg hne, h1]
  have hx : (12102 / 100 * 100 : ℝ) = ((12102 : ℤ) : ℝ) := by norm_num
  rw [pyRound2R, hx, roundHalfEvenR_intCast]
  rw [lt_max_iff]
  right
  norm_num

/-- The split model is the same handler: an uninterleaved cash-out is exactly
the guarded `SELECT` (`cashout_read`) followed by the rest of the
transaction (`cashout_finish`) with no other request in between. -/
theorem api_aviator_cashout_eq_read_finish (s : BotState) (c rid now : Nat)
    (h0 : ¬(c = 0 ∨ rid = 0)) :
    api_aviator_cashout s c rid now =
      match cashout_read s c rid with
      | none => (.notFoundOrEnded, s)
      | some r => cashout_finish s c rid now r := by
  rcases hr0 : s.rounds rid with _ | r0
  · simp [api_aviator_cashout, cashout_read, h0, hr0]
  · by_cases hcond : r0.chatId = c ∧ r0.status = RoundStatus.active
    · rw [cashout_read, hr0]
      simp only [if_pos hcond]
      by_cases hcr : r0.crashPoint ≤ multiplier_at_ms (now - r0.startTime)
      · simp [api_aviator_cashout, cashout_finish, h0, hr0, hcond.1, hcond.2, hcr]
        funext i
        by_cases hi : i = rid <;> simp [hi, hr0, hcond.1]
      · rcases hps : s.plays rid with _ | p
        · simp [api_aviator_cashout, cashout_finish, h0, hr0,
            hcond.1, hcond.2, hcr, hps]
        · by_cases hpc : p.chatId = c
          · rcases hus : s.users c with _ | u
            · simp [api_aviator_cashout, cashout_finish, h0, hr0,
                hcond.1, hcond.2, hcr, hps, hpc, hus]
            · simp [api_aviator_cashout, cashout_finish, h0, hr0,
                hcond.1, hcond.2, hcr, hps, hpc, hus]
              funext i
              by_cases hi : i = rid <;> simp [hi, hr0, hcond.1]
          · simp [api_aviator_cashout, cashout_finish, h0, hr0,
              hcond.1, hcond.2, hcr, hps, hpc]
    · rw [cashout_read, hr0]
      simp only [if_neg hcond]
      rcases not_and_or.mp hcond with hchat2 | hst
      · simp [api_aviator_cashout, h0, hr0, hchat2]
      · simp [api_aviator_cashout, h0, hr0, hst]

/-- C1 (failing input for the code bug): the terminal `UPDATE`s carry no
`status='active'` guard, so when two concurrent cash-out requests for the
active round of `state1` both run their guarded `SELECT` before either
commits (both obtain the `runningRound` snapshot) and then both commit,
both report a successful cash-out and the payout `10 * multiplier_at_ms 1`
is credited twice — the second settlement succeeds although the round is
already cashed, violating the claim's "exactly one transition wins and the
loser takes no further balance action". -/
theorem cashout_double_settlement_bug :
    cashout_read state1 7 1 = some runningRound ∧
    (cashout_finish state1 7 1 1 runningRound).1 =
      .ok (pyRound2 (multiplier_at_ms 1)) (pyRound2 (10 * multiplier_at_ms 1))
        (90 + 10 * multiplier_at_ms 1) ∧
    (cashout_finish state1 7 1 1 runningRound).2.rounds 1 =
      some { runningRound with status := .cashed, endTime := some 1 } ∧
    (cashout_finish ((cashout_finish state1 7 1 1 runningRound).2) 7 1 1
        runningRound).1 =
      .ok (pyRound2 (multiplier_at_ms 1)) (pyRound2 (10 * multiplier_at_ms 1))
        (90 + 10 * multiplier_at_ms 1 + 10 * multiplier_at_ms 1) ∧
    (cashout_finish ((cashout_finish state1 7 1 1 runningRound).2) 7 1 1
        runningRound).2.users 7 =
      some { balance := 90 + 10 * multiplier_at_ms 1 + 10 * multiplier_at_ms 1,
             registered := true } := by
  refine ⟨by simp [cashout_read, state1, runningRound], ?_, ?_, ?_, ?_⟩ <;>
    norm_num [cashout_finish, state1, runningRound, runningPlay,
      multiplier_at_ms, K]
